import Mathlib

/-!
Verification development for the pyEcholab `processed_data` grid class
(src/echolab2/processing/processed_data.py).

Shallow embedding conventions:
* A float sample value is `Option ℝ`: `none` models numpy NaN (absent sample),
  `some x` a finite value.  Axis values, ping times and sample_thickness are
  modelled as `ℚ` so that axis comparisons and branching are executable
  (every finite float is a rational).
* The single live 2D sample array (the data model fixes exactly one active
  named array per data_type) is `data : List (List (Option ℝ))`, indexed
  row = ping, column = sample.
* Python exceptions are `Except PdError`.  Methods whose Python versions
  mutate the object in place are functions returning the new object; `replace`
  and `insert` additionally return the final state of the caller-supplied
  source object, because the Python code mutates that argument in place.
* The parent class `sample_data` (the Grid Container) is not part of the
  sources; its primitives are modelled from the spec and marked as such.
-/

/-- Vertical axis kind: the grid carries exactly one of a range or a depth
attribute at any time (spec data-model invariant (c)). -/
inductive AxisKind where
  | range : AxisKind
  | depth : AxisKind
deriving DecidableEq, Repr

/-- Python exceptions raised by the embedded code paths. -/
inductive PdError where
  | typeError : String → PdError
  | valueError : String → PdError
  | attributeError : String → PdError
  | indexError : String → PdError
deriving DecidableEq, Repr

/-- The processed_data grid: channel metadata, the ping-time axis, exactly one
vertical axis (range or depth, see `axisKind`), the live 2D sample array, and
the dimension counters `n_pings` / `n_samples` kept as stored attributes
exactly as the Python class stores them. -/
structure ProcessedData where
  channelId : List String
  frequency : ℚ
  dataType : String
  sampleThickness : ℚ
  sampleOffset : ℤ
  pingTime : List ℚ
  axisKind : AxisKind
  vaxis : List ℚ
  data : List (List (Option ℝ))
  nPings : ℕ
  nSamples : ℕ

/-- Modelled from the spec: the external mask object contract (spec section 6,
"Consumed from Mask objects"): a boolean array, a type tag (ping or sample) and
its own copies of ping_time and of the vertical axis used for compatibility
validation.  Ping masks carry no vertical axis (`vaxisKind = none`).  The
boolean array is stored in the field matching the type tag. -/
structure EchoMask where
  maskType : String
  pingTime : List ℚ
  vaxisKind : Option AxisKind
  vaxis : List ℚ
  pingMask : List Bool
  sampleMask : List (List Bool)

/-- numpy arange(n) * t + o, the axis-regeneration formula used throughout. -/
def arangeQ (n : ℕ) (t o : ℚ) : List ℚ :=
  (List.range n).map fun i => (i : ℚ) * t + o

/-- np.ediff1d: consecutive differences of a 1D array. -/
def ediff1d (l : List ℚ) : List ℚ :=
  (l.zip l.tail).map fun p => p.2 - p.1

/-- np.mean of a 1D array (the Python value at an empty array is NaN; this
model returns 0 there via rational division by zero, a case the embedded
call sites do not rely on). -/
def npMean (l : List ℚ) : ℚ := l.sum / l.length

/-- np.min of a 1D array (Python raises at an empty array; this model returns
0 there, and theorems about call sites keep the array nonempty). -/
def npMinQ : List ℚ → ℚ
  | [] => 0
  | x :: xs => xs.foldl min x

/-- np.max of a 1D array, same conventions as `npMinQ`. -/
def npMaxQ : List ℚ → ℚ
  | [] => 0
  | x :: xs => xs.foldl max x

/-- np.isclose with the numpy defaults rtol = 1e-5, atol = 1e-8. -/
def npIsClose (a b : ℚ) : Bool :=
  decide (|a - b| ≤ 1 / 100000000 + |b| / 100000)

/-- np.all(np.isclose(a, b)) for two equal-length 1D arrays. -/
def allCloseB (a b : List ℚ) : Bool :=
  (List.zipWith npIsClose a b).all fun x => x

/-- Modelled from the spec: raw 1D resize of the Grid Container
(sample_data.resize, not under src/): truncate or zero-pad a registered 1D
attribute to the new length, preserving indices.  The spec assigns all axis
regeneration to processed_data.resize, so the raw primitive only reshapes. -/
def rawResize1 (l : List ℚ) (n : ℕ) : List ℚ :=
  (List.range n).map fun i => l.getD i 0

/-- Modelled from the spec: raw resize of one row of a 2D sample array;
new cells hold no sample (NaN). -/
def rawResizeRow (row : List (Option ℝ)) (s : ℕ) : List (Option ℝ) :=
  (List.range s).map fun j => row.getD j none

/-- Modelled from the spec: raw resize of a 2D sample array to
new_ping_dim × new_sample_dim, preserving per-cell indexing. -/
def rawResizeData (d : List (List (Option ℝ))) (p s : ℕ) : List (List (Option ℝ)) :=
  (List.range p).map fun i => rawResizeRow (d.getD i []) s

/-- Modelled from the spec: sample_data.resize, the raw dimensional resize of
the Grid Container (spec section 6), which is not under src/.  Every
registered attribute is resized to the new dimensions (ping_time to the ping
dimension, the vertical axis to the sample dimension, 2D arrays to
ping × sample) and n_samples is updated, as the comment at line 509 of
processed_data.py records. -/
def rawResizeGrid (g : ProcessedData) (p s : ℕ) : ProcessedData :=
  { g with
    pingTime := (List.range p).map fun i => g.pingTime.getD i 0
    vaxis := rawResize1 g.vaxis s
    data := rawResizeData g.data p s
    nSamples := s }

/-- processed_data.resize (lines 494-513).  Line 507 computes
arange(new_sample_dim) * sample_thickness + vaxis[0] but binds the result to
the local name vaxis, rebinding the local rather than mutating the attribute,
so the regenerated axis is discarded; only the raw container resize acts on
the stored axis.  Afterwards n_pings is refreshed from the ping_time length
(line 513). -/
def ProcessedData.resize (g : ProcessedData) (newPingDim newSampleDim : ℕ) :
    ProcessedData :=
  let g' := rawResizeGrid g newPingDim newSampleDim
  { g' with nPings := g'.pingTime.length }

/-- to_linear (lines 415-427): for data_type Sv the live array is replaced by
10 ** (Sv / 10) under the name sv (analogously Sp to sp); other data types are
untouched.  NaN maps to NaN. -/
noncomputable def ProcessedData.to_linear (g : ProcessedData) : ProcessedData :=
  if g.dataType = "Sv" then
    { g with data := g.data.map fun row => row.map (Option.map fun x => (10 : ℝ) ^ (x / 10))
             dataType := "sv" }
  else if g.dataType = "Sp" then
    { g with data := g.data.map fun row => row.map (Option.map fun x => (10 : ℝ) ^ (x / 10))
             dataType := "sp" }
  else g

/-- One sample of to_log: 10 * log10 x.  np.log10 yields NaN at negative
input; the Python value at exactly 0 is -inf, which this model folds into the
missing-value case as well (no embedded claim depends on it). -/
noncomputable def log10x10 (v : Option ℝ) : Option ℝ :=
  v.bind fun x => if 0 < x then some (10 * Real.logb 10 x) else none

/-- to_log (lines 430-442): for data_type sv the live array is replaced by
10 * log10(sv) under the name Sv (analogously sp to Sp). -/
noncomputable def ProcessedData.to_log (g : ProcessedData) : ProcessedData :=
  if g.dataType = "sv" then
    { g with data := g.data.map fun row => row.map log10x10
             dataType := "Sv" }
  else if g.dataType = "sp" then
    { g with data := g.data.map fun row => row.map log10x10
             dataType := "Sp" }
  else g

/-- One linear-interpolation segment of np.interp: the value at x between the
nodes (x0, y0) and (x1, y1).  The interpolation weight is rational (axis
arithmetic); NaN in either node value propagates. -/
def interpSeg (x x0 x1 : ℚ) (y0 y1 : Option ℝ) : Option ℝ :=
  match y0, y1 with
  | some a, some b => some (a + (b - a) * (((x - x0) / (x1 - x0) : ℚ) : ℝ))
  | _, _ => none

/-- Segment search of np.interp over the remaining nodes: xPrev/yPrev is the
last node already passed; a query beyond the final node yields NaN
(left = right = np.nan at the call sites in processed_data.py). -/
def interpGo (x : ℚ) : ℚ → Option ℝ → List ℚ → List (Option ℝ) → Option ℝ
  | xPrev, yPrev, [], _ => if x = xPrev then yPrev else none
  | xPrev, yPrev, x1 :: xs, ys =>
    if x ≤ x1 then interpSeg x xPrev x1 yPrev (ys.headD none)
    else interpGo x x1 (ys.headD none) xs (ys.drop 1)

/-- np.interp(x, xp, fp, left=np.nan, right=np.nan) at a single query point:
queries outside [xp[0], xp[-1]] yield NaN; xp is assumed increasing as numpy
requires. -/
def interpAt (x : ℚ) (xp : List ℚ) (fp : List (Option ℝ)) : Option ℝ :=
  match xp with
  | [] => none
  | x0 :: rest =>
    if x < x0 then none
    else interpGo x x0 (fp.headD none) rest (fp.drop 1)

/-- np.interp(xNew, xp, fp, left=np.nan, right=np.nan) over a whole query
axis. -/
def npInterp (xNew xp : List ℚ) (fp : List (Option ℝ)) : List (Option ℝ) :=
  xNew.map fun x => interpAt x xp fp

/-- The common tail of interpolate (lines 471-491): recompute
sample_thickness as the mean consecutive difference of the new axis, convert
log-domain data to linear, per-ping linear interpolation of the first
old-axis-length samples of each row from the old axis onto the new axis, and
convert back to log. -/
noncomputable def interpTail (g : ProcessedData) (oldVaxis newVaxis : List ℚ) :
    ProcessedData :=
  let g1 := { g with sampleThickness := npMean (ediff1d newVaxis) }
  let isLog := g1.dataType.startsWith "S"
  let g2 := if isLog then g1.to_linear else g1
  let g3 := { g2 with
    data := g2.data.map fun row => npInterp newVaxis oldVaxis (row.take oldVaxis.length) }
  if isLog then g3.to_log else g3

/-- interpolate (lines 445-491): keep a copy of the current vertical axis; if
the new axis has a different length, resize first; if it has the same length
and is element-wise np.isclose to the current axis, return with no mutation;
otherwise run the interpolation tail. -/
noncomputable def ProcessedData.interpolate (g : ProcessedData) (newVaxis : List ℚ) :
    ProcessedData :=
  let oldVaxis := g.vaxis
  if newVaxis.length ≠ g.nSamples then
    interpTail (g.resize g.nPings newVaxis.length) oldVaxis newVaxis
  else if allCloseB oldVaxis newVaxis then g
  else interpTail g oldVaxis newVaxis

/-- Modelled from the spec: sample_data.get_indices (Grid Container, not under
src/): row-index resolution from a ping-number or ping-time range (spec
section 6), returning the indices of the pings inside the given bounds. -/
def ProcessedData.get_indices (g : ProcessedData)
    (startTime endTime : Option ℚ) (startPing endPing : Option ℕ) : List ℕ :=
  (List.range g.nPings).filter fun i =>
    (startPing.all fun p => p ≤ i) && (endPing.all fun p => i ≤ p) &&
    (startTime.all fun t => decide (t ≤ g.pingTime.getD i 0)) &&
    (endTime.all fun t => decide (g.pingTime.getD i 0 ≤ t))

/-- _like (lines 693-710): builds a fresh processed_data instance carrying
only the basic scalar properties (channel_id, frequency, data_type,
sample_thickness, sample_offset); no arrays are attached.  Absent arrays are
modelled as empty lists, the absent vertical axis keeps the source kind tag.
The n_pings argument is defaulted to this object's ping count and is not used
further by the Python body. -/
def ProcessedData._like (g : ProcessedData) (nPings' : Option ℕ) : ProcessedData :=
  let _ := nPings'.getD g.nPings
  { channelId := g.channelId
    frequency := g.frequency
    dataType := g.dataType
    sampleThickness := g.sampleThickness
    sampleOffset := g.sampleOffset
    pingTime := []
    axisKind := g.axisKind
    vaxis := []
    data := []
    nPings := 0
    nSamples := 0 }

/-- empty_like (lines 230-259): the first self._like(n_pings) call succeeds,
but the second call at line 258 passes five arguments to _like, which accepts
only n_pings (line 693), so every call of empty_like raises TypeError before
returning. -/
def ProcessedData.empty_like (g : ProcessedData) (nPings' : ℕ) :
    Except PdError ProcessedData :=
  let emptyObj := g._like (some nPings')
  let _ := emptyObj
  .error (.typeError "_like takes 2 positional arguments but 6 were given")

/-- numpy truthiness of the index_array argument as evaluated by the
`if (index_array):` test at line 126 of replace: None and a length-zero array
are falsy, a length-one array is truthy exactly when its element is nonzero,
and any longer array raises ValueError (ambiguous truth value). -/
def npTruthy (ia : Option (List ℕ)) : Except PdError Bool :=
  match ia with
  | none => .ok false
  | some [] => .ok false
  | some [x] => .ok (x != 0)
  | some (_ :: _ :: _) =>
    .error (.valueError "The truth value of an array with more than one element is ambiguous. Use a.any or a.all")

/-- Modelled from the spec: sample_data.replace, the Grid Container raw
ping-overwrite primitive (not under src/).  Target rows are resolved from an
index array or a ping-number/ping-time lookup; per the method docstring and
spec section 4.3, a ping number, ping time or index array must be specified,
so a call carrying only None keys fails.  Resolved rows are overwritten with
the source rows, never growing the grid. -/
def superReplace (g src : ProcessedData) (pingNumber : Option ℕ)
    (pingTime' : Option ℚ) (insertAfter : Bool) (indexArray : Option (List ℕ)) :
    Except PdError ProcessedData :=
  let _ := insertAfter
  let startIdx : Except PdError ℕ :=
    match indexArray, pingNumber, pingTime' with
    | some ia, _, _ => .ok (ia.headD 0)
    | none, some pn, _ => .ok pn
    | none, none, some t =>
      .ok ((g.get_indices (some t) none none none).headD g.nPings)
    | none, none, none =>
      .error (.valueError "Either ping_number or ping_time needs to be defined.")
  match startIdx with
  | .error e => .error e
  | .ok start =>
    let k := min src.nPings (g.nPings - start)
    .ok { g with
      data := (g.data.take start) ++ (src.data.take k) ++ (g.data.drop (start + k))
      pingTime := (g.pingTime.take start) ++ (src.pingTime.take k) ++
        (g.pingTime.drop (start + k)) }

/-- The tail of replace after the source object exists (lines 142-161): the
data-type check comes first, but building its TypeError message evaluates
self.data_type.data_type (line 146) on a str, which raises AttributeError
instead; with equal data types the source is interpolated in place onto this
object's vertical axis and the parent replace is called with ping_number,
ping_time and index_array all None (lines 160-161), discarding the resolved
target rows.  The second component is the final state of the source object. -/
noncomputable def replaceChecked (g src : ProcessedData) :
    Except PdError ProcessedData × ProcessedData :=
  if g.dataType != src.dataType then
    (.error (.attributeError "str object has no attribute data_type"), src)
  else
    let srcI := src.interpolate g.vaxis
    (superReplace g srcI none none true none, srcI)

/-- replace (lines 97-161).  The target-resolution step evaluates numpy
truthiness of index_array (line 126), then either takes the index array as
given or resolves a starting row via get_indices and targets every row from
there on (without limiting by the source ping count).  A None source is
synthesized via empty_like, which raises TypeError (see `empty_like`); had it
returned, line 140 reads self.ping_times, an attribute that does not exist
(the ping-time axis is named ping_time), raising AttributeError.  The second
component is the final state of the caller-supplied source object (None when
no source was passed). -/
noncomputable def ProcessedData.replace (g : ProcessedData)
    (objToInsert : Option ProcessedData) (pingNumber : Option ℕ)
    (pingTime' : Option ℚ) (indexArray : Option (List ℕ)) :
    Except PdError ProcessedData × Option ProcessedData :=
  match npTruthy indexArray with
  | .error e => (.error e, objToInsert)
  | .ok cond =>
    let resolved : Except PdError (ℕ × List ℕ) :=
      if cond then
        let ia := indexArray.getD []
        .ok (ia.length, ia)
      else
        match (g.get_indices pingTime' pingTime' pingNumber pingNumber).head? with
        | none => .error (.indexError "index 0 is out of bounds for axis 0 with size 0")
        | some idx =>
          .ok (g.nPings - idx, (List.range (g.nPings - idx)).map fun k => k + idx)
    match resolved with
    | .error e => (.error e, objToInsert)
    | .ok (nInserting, _idxArr) =>
      match objToInsert with
      | none =>
        match g.empty_like nInserting with
        | .error e => (.error e, none)
        | .ok _src =>
          (.error (.attributeError "processed_data object has no attribute ping_times"), none)
      | some src =>
        let r := replaceChecked g src
        (r.1, some r.2)

/-- Modelled from the spec: sample_data.insert, the Grid Container raw
ping-insert primitive (not under src/): inserts the source rows at the
resolved row (immediately after it when insert_after is set), shifting the
existing rows at or after the insertion point later and growing n_pings by
the inserted count (spec section 4.3). -/
def superInsert (g src : ProcessedData) (pingNumber : Option ℕ)
    (pingTime' : Option ℚ) (insertAfter : Bool) (indexArray : Option (List ℕ)) :
    ProcessedData :=
  let at0 :=
    match indexArray, pingNumber, pingTime' with
    | some ia, _, _ => ia.headD 0
    | none, some pn, _ => pn
    | none, none, some t => (g.get_indices (some t) none none none).headD g.nPings
    | none, none, none => g.nPings
  let atRow := if insertAfter then at0 + 1 else at0
  { g with
    data := (g.data.take atRow) ++ src.data ++ (g.data.drop atRow)
    pingTime := (g.pingTime.take atRow) ++ src.pingTime ++ (g.pingTime.drop atRow)
    nPings := g.nPings + src.nPings }

/-- The tail of insert after the source object exists (lines 205-227): the
data-type check raises TypeError on mismatch (its message is built correctly
here, unlike in replace), then the source is interpolated in place onto this
object's vertical axis and handed to the parent insert with the original
keywords.  The second component is the final state of the source object. -/
noncomputable def insertChecked (g src : ProcessedData) (pingNumber : Option ℕ)
    (pingTime' : Option ℚ) (insertAfter : Bool) (indexArray : Option (List ℕ)) :
    Except PdError ProcessedData × ProcessedData :=
  if g.dataType != src.dataType then
    (.error (.typeError ("You cannot insert an object that contains " ++ src.dataType ++
      " data into an object that contains " ++ g.dataType ++ " data.")), src)
  else
    let srcI := src.interpolate g.vaxis
    (.ok (superInsert g srcI pingNumber pingTime' insertAfter indexArray), srcI)

/-- insert (lines 164-227): resolve how many pings are being inserted, then
synthesize a None source via empty_like (which raises TypeError, see
`empty_like`), run the data-type check and the in-place interpolation of the
source, and delegate to the parent insert.  The second component is the final
state of the caller-supplied source object (None when no source was
passed). -/
noncomputable def ProcessedData.insert (g : ProcessedData)
    (objToInsert : Option ProcessedData) (pingNumber : Option ℕ)
    (pingTime' : Option ℚ) (insertAfter : Bool) (indexArray : Option (List ℕ)) :
    Except PdError ProcessedData × Option ProcessedData :=
  let nIns : Except PdError ℕ :=
    match indexArray with
    | none =>
      match (g.get_indices pingTime' pingTime' pingNumber pingNumber).head? with
      | none => .error (.indexError "index 0 is out of bounds for axis 0 with size 0")
      | some idx => .ok (g.nPings - idx)
    | some ia => .ok ia.length
  match nIns with
  | .error e => (.error e, objToInsert)
  | .ok n =>
    match objToInsert with
    | none =>
      match g.empty_like n with
      | .error e => (.error e, none)
      | .ok src =>
        let r := insertChecked g src pingNumber pingTime' insertAfter indexArray
        (r.1, none)
    | some src =>
      let r := insertChecked g src pingNumber pingTime' insertAfter indexArray
      (r.1, some r.2)

/-- shift_pings (lines 344-412): compute the shift extent; with a nonzero
extent grow n_samples by ceil(extent / sample_thickness) via resize and
re-interpolate every ping row at the shifted axis (through linear space for
log data); with extent zero neither resize nor resampling happens.  The final
assignment for the non-to_depth case (line 412) rebinds the local vert_axis
name and leaves the stored axis untouched; only the to_depth conversion
actually stores the new axis, under the depth attribute.  (The float32 cast
in the sample-count computation is modelled as exact rational arithmetic.) -/
noncomputable def ProcessedData.shift_pings (g : ProcessedData)
    (vertShift : List ℚ) (toDepth : Bool) : ProcessedData :=
  let minShift := npMinQ vertShift
  let maxShift := npMaxQ vertShift
  let vertExt := maxShift - minShift
  let vertAxis := g.vaxis
  let toDepth2 := if g.axisKind = AxisKind.depth then false else toDepth
  let oldSamps := g.nSamples
  let g1 :=
    if vertExt ≠ 0 then
      g.resize g.nPings (g.nSamples + (Int.toNat ⌈vertExt / g.sampleThickness⌉))
    else g
  let newAxis := arangeQ g1.nSamples g1.sampleThickness (npMinQ vertAxis + minShift)
  let g2 :=
    if vertExt ≠ 0 then
      let isLog := g1.dataType.startsWith "S"
      let gl := if isLog then g1.to_linear else g1
      let gl2 := { gl with
        data := gl.data.mapIdx fun p row =>
          npInterp newAxis (vertAxis.map fun v => v + vertShift.getD p 0) (row.take oldSamps) }
      if isLog then gl2.to_log else gl2
    else g1
  if toDepth2 then { g2 with axisKind := AxisKind.depth, vaxis := newAxis }
  else g2

/-- _check_mask (lines 638-665): the mask ping times must equal the data ping
times; a mask carrying a range axis is only compatible with range data (and
its ranges must match), symmetrically for depth; ping masks carry no vertical
axis and pass the axis check. -/
def ProcessedData.check_mask (g : ProcessedData) (m : EchoMask) :
    Except PdError Unit :=
  if g.pingTime ≠ m.pingTime then
    .error (.valueError "Mask ping times do not match the data ping times.")
  else
    match m.vaxisKind with
    | some AxisKind.range =>
      if g.axisKind = AxisKind.range then
        if g.vaxis ≠ m.vaxis then
          .error (.valueError "The mask ranges do not match the data ranges.")
        else .ok ()
      else .error (.attributeError "You cannot compare a range based mask with depth based data.")
    | some AxisKind.depth =>
      if g.axisKind = AxisKind.depth then
        if g.vaxis ≠ m.vaxis then
          .error (.valueError "The mask depths do not match the data depths.")
        else .ok ()
      else .error (.attributeError "You cannot compare a depth based mask with range based data.")
    | none => .ok ()

/-- numpy boolean selection over one row: the values at the True positions,
in order. -/
def rowSelect (row : List (Option ℝ)) (mrow : List Bool) : List (Option ℝ) :=
  ((row.zip mrow).filter fun p => p.2).map fun p => p.1

/-- numpy boolean-array indexing attr[sample_mask] for a 2D array and an
equally shaped 2D boolean mask: the selected values as a flat 1D array in
row-major order. -/
def npBoolIndex (d : List (List (Option ℝ))) (msk : List (List Bool)) :
    List (Option ℝ) :=
  (List.zipWith rowSelect d msk).flatten

/-- The mask branch of __getitem__ (lines 566-597): validate the mask, expand
a ping mask to full grid shape (every sample of a selected ping selected),
and return the boolean selection of the live 2D array as a flat numpy array,
not a processed_data object.  The code compares key.type.lower() against
the literal sample; the mask model stores its type tag lowercase, so the
comparison is embedded without the lowercasing step. -/
def ProcessedData.getitem_mask (g : ProcessedData) (m : EchoMask) :
    Except PdError (List (Option ℝ)) :=
  match g.check_mask m with
  | .error e => .error e
  | .ok _ =>
    let sampleMask :=
      if m.maskType = "sample" then m.sampleMask
      else (List.range g.nPings).map fun i =>
        List.replicate g.nSamples (m.pingMask.getD i false)
    .ok (npBoolIndex g.data sampleMask)

/-- An operand of the comparison operators: a scalar or a peer grid. -/
inductive PdOperand where
  | scalar : ℝ → PdOperand
  | pdObj : ProcessedData → PdOperand

/-- __lt__ (lines 736-737) is a bare pass statement: it returns None for every
operand instead of a sample mask.  __ge__, __le__, __eq__ and __ne__
(lines 740-751) are bare pass statements as well, and __gt__ (lines 713-733)
breaks off at line 731 in the incomplete assignment compare_mask.mask[:] =
self. followed by pass, which does not parse.  None of the comparison
operators produces a mask. -/
def ProcessedData.lt_op (g : ProcessedData) (other : PdOperand) : Option EchoMask :=
  let _ := g
  let _ := other
  none

/-- __ge__ (lines 740-741), a bare pass statement returning None. -/
def ProcessedData.ge_op (g : ProcessedData) (other : PdOperand) : Option EchoMask :=
  let _ := g
  let _ := other
  none

/-- __le__ (lines 743-744), a bare pass statement returning None. -/
def ProcessedData.le_op (g : ProcessedData) (other : PdOperand) : Option EchoMask :=
  let _ := g
  let _ := other
  none

/-- __eq__ (lines 747-748), a bare pass statement returning None. -/
def ProcessedData.eq_op (g : ProcessedData) (other : PdOperand) : Option EchoMask :=
  let _ := g
  let _ := other
  none

/-- __ne__ (lines 750-751), a bare pass statement returning None. -/
def ProcessedData.ne_op (g : ProcessedData) (other : PdOperand) : Option EchoMask :=
  let _ := g
  let _ := other
  none

/-- Property claimed of a post-resize vertical axis: consecutive differences
all equal to the sample thickness. -/
def uniformSpacing (l : List ℚ) (t : ℚ) : Prop :=
  l.Chain' fun a b => b - a = t

/-- A 2-ping, 2-sample Sv range grid with axis [0, 1], thickness 1, used as
the concrete input of several theorems below. -/
def exGridSv : ProcessedData :=
  { channelId := ["chan"]
    frequency := 38000
    dataType := "Sv"
    sampleThickness := 1
    sampleOffset := 0
    pingTime := [0, 1]
    axisKind := AxisKind.range
    vaxis := [0, 1]
    data := [[some 0, some 0], [some 0, some 0]]
    nPings := 2
    nSamples := 2 }

/-- A linear-domain (sv) peer of `exGridSv`, same shape and axes. -/
def exGridsv : ProcessedData :=
  { exGridSv with dataType := "sv", data := [[some 1, some 1], [some 1, some 1]] }

/-- A 3-ping, 3-sample power-type target grid with axis [0, 1, 2]. -/
def exGridPow : ProcessedData :=
  { channelId := ["chan"]
    frequency := 38000
    dataType := "power"
    sampleThickness := 1
    sampleOffset := 0
    pingTime := [0, 1, 2]
    axisKind := AxisKind.range
    vaxis := [0, 1, 2]
    data := [[some 1, some 2, some 3], [some 4, some 5, some 6], [some 7, some 8, some 9]]
    nPings := 3
    nSamples := 3 }

/-- A 2-ping, 2-sample power-type source grid with axis [0, 1], to be
interpolated onto `exGridPow`. -/
def exGridPowSrc : ProcessedData :=
  { channelId := ["chan"]
    frequency := 38000
    dataType := "power"
    sampleThickness := 1
    sampleOffset := 0
    pingTime := [5, 6]
    axisKind := AxisKind.range
    vaxis := [0, 1]
    data := [[some 10, some 20], [some 30, some 40]]
    nPings := 2
    nSamples := 2 }

/-- A sample-typed mask compatible with `exGridPow`, selecting three cells. -/
def exMaskPow : EchoMask :=
  { maskType := "sample"
    pingTime := [0, 1, 2]
    vaxisKind := some AxisKind.range
    vaxis := [0, 1, 2]
    pingMask := []
    sampleMask := [[true, false, true], [false, false, false], [false, true, false]] }

/-- Claim C1: resize(p, s) is claimed to leave n_pings = p, n_samples = s and
a regenerated vertical axis of length s with spacing sample_thickness and
preserved origin.  At the concrete grid `exGridSv` (range [0, 1], thickness
1), resize(2, 4) does give n_pings = 2, n_samples = 4, length 4 and a
preserved first element, but the stored axis is the raw-resized [0, 1, 0, 0]:
the regenerated axis computed at line 507 is bound to a local name and
discarded, so the spacing claim fails. -/
theorem c1_resize_discards_regenerated_axis :
    (exGridSv.resize 2 4).nPings = 2 ∧
    (exGridSv.resize 2 4).nSamples = 4 ∧
    (exGridSv.resize 2 4).vaxis = [0, 1, 0, 0] ∧
    ¬ uniformSpacing (exGridSv.resize 2 4).vaxis exGridSv.sampleThickness := by
  refine ⟨rfl, rfl, by decide, ?_⟩
  show ¬ List.Chain' (fun a b : ℚ => b - a = 1) [0, 1, 0, 0]
  simp [List.chain'_cons]

/-- Claim C3: interpolate with a new axis of the current length that is
element-wise np.isclose to the current axis returns with no mutation at all:
the grid is unchanged, hence every sample value, the vertical axis and
sample_thickness are unchanged. -/
theorem c3_interpolate_close_is_noop (g : ProcessedData) (newVaxis : List ℚ)
    (_hvl : g.vaxis.length = g.nSamples)
    (hlen : newVaxis.length = g.nSamples)
    (hclose : allCloseB g.vaxis newVaxis = true) :
    g.interpolate newVaxis = g := by
  unfold ProcessedData.interpolate
  simp [hlen, hclose]

/-- Witness for C3 at the concrete grid `exGridSv` and the axis [0, 1]. -/
theorem c3_interpolate_close_is_noop_witness :
    exGridSv.vaxis.length = exGridSv.nSamples ∧
    ([0, 1] : List ℚ).length = exGridSv.nSamples ∧
    allCloseB exGridSv.vaxis [0, 1] = true ∧
    exGridSv.interpolate [0, 1] = exGridSv :=
  ⟨rfl, rfl,
    by show allCloseB [0, 1] [0, 1] = true; norm_num [allCloseB, npIsClose],
    c3_interpolate_close_is_noop exGridSv [0, 1] rfl rfl
      (by show allCloseB [0, 1] [0, 1] = true; norm_num [allCloseB, npIsClose])⟩

/-- Claim C8: the comparison operators are claimed to return sample-typed
masks of elementwise comparisons.  In the code __lt__, __ge__, __le__, __eq__
and __ne__ are bare pass statements returning None for every operand (and
__gt__ does not even parse), as evaluated here at a scalar operand and at a
peer-grid operand. -/
theorem c8_comparisons_return_no_mask :
    exGridSv.lt_op (PdOperand.scalar 0) = none ∧
    exGridSv.ge_op (PdOperand.scalar 0) = none ∧
    exGridSv.le_op (PdOperand.scalar 0) = none ∧
    exGridSv.eq_op (PdOperand.pdObj exGridSv) = none ∧
    exGridSv.ne_op (PdOperand.pdObj exGridSv) = none :=
  ⟨rfl, rfl, rfl, rfl, rfl⟩

/-- Claim C2: replace with an index array is claimed to mutate exactly the
listed rows.  The code instead evaluates `if (index_array):` on the numpy
index array (line 126), which raises ValueError for any array of two or more
indices before any row is touched; the caller-supplied source is returned
untouched. -/
theorem c2_replace_index_array_crashes :
    (exGridSv.replace (some exGridSv) none none (some [0, 1])).1 =
      Except.error (PdError.valueError
        "The truth value of an array with more than one element is ambiguous. Use a.any or a.all") ∧
    (exGridSv.replace (some exGridSv) none none (some [0, 1])).2 = some exGridSv := by
  exact ⟨rfl, rfl⟩

/-- Claim C5: a data-type mismatch is claimed to fail with a
data-type-mismatch error before any mutation, for both replace and insert.
insert raises the intended TypeError, but replace raises AttributeError while
building the message (line 146 evaluates self.data_type.data_type on a str);
in both cases the target is untouched and the source is returned
uninterpolated. -/
theorem c5_mismatch_errors :
    (exGridSv.replace (some exGridsv) (some 0) none none).1 =
      Except.error (PdError.attributeError "str object has no attribute data_type") ∧
    (exGridSv.replace (some exGridsv) (some 0) none none).2 = some exGridsv ∧
    (exGridSv.insert (some exGridsv) (some 0) none true none).1 =
      Except.error (PdError.typeError
        "You cannot insert an object that contains sv data into an object that contains Sv data.") ∧
    (exGridSv.insert (some exGridsv) (some 0) none true none).2 = some exGridsv := by
  exact ⟨rfl, rfl, rfl, rfl⟩

/-- Claim C9: replace with the source omitted is claimed to blank the
targeted rows to NaN while preserving ping times.  The call instead raises
TypeError inside empty_like (line 258 passes five arguments to the
one-parameter _like of line 693) before any row is touched; had empty_like
returned, line 140 would read the nonexistent attribute self.ping_times. -/
theorem c9_replace_none_source_crashes :
    (exGridSv.replace none (some 0) none none).1 =
      Except.error (PdError.typeError "_like takes 2 positional arguments but 6 were given") ∧
    (exGridSv.replace none (some 0) none none).2 = none := by
  exact ⟨rfl, rfl⟩

/-- Folding min over an all-zero list starting from 0 stays 0. -/
theorem foldl_min_zero (xs : List ℚ) (h : ∀ x ∈ xs, x = 0) :
    xs.foldl min 0 = 0 := by
  induction xs with
  | nil => rfl
  | cons y ys ih =>
    have hy : y = 0 := h y (by simp)
    subst hy
    simpa using ih fun x hx => h x (by simp [hx])

/-- Folding max over an all-zero list starting from 0 stays 0. -/
theorem foldl_max_zero (xs : List ℚ) (h : ∀ x ∈ xs, x = 0) :
    xs.foldl max 0 = 0 := by
  induction xs with
  | nil => rfl
  | cons y ys ih =>
    have hy : y = 0 := h y (by simp)
    subst hy
    simpa using ih fun x hx => h x (by simp [hx])

/-- np.min of an all-zero vector is 0. -/
theorem npMinQ_zero (l : List ℚ) (h : ∀ x ∈ l, x = 0) : npMinQ l = 0 := by
  cases l with
  | nil => rfl
  | cons x xs =>
    have hx : x = 0 := h x (by simp)
    subst hx
    exact foldl_min_zero xs fun y hy => h y (by simp [hy])

/-- np.max of an all-zero vector is 0. -/
theorem npMaxQ_zero (l : List ℚ) (h : ∀ x ∈ l, x = 0) : npMaxQ l = 0 := by
  cases l with
  | nil => rfl
  | cons x xs =>
    have hx : x = 0 := h x (by simp)
    subst hx
    exact foldl_max_zero xs fun y hy => h y (by simp [hy])

/-- Claim C6: shift_pings with an all-zero (nonempty, as numpy min requires)
shift vector and the default to_depth = False leaves the grid unchanged: the
shift extent is zero, so neither the resize nor the per-ping resampling runs,
and the final axis assignment rebinds only a local name. -/
theorem c6_shift_pings_zero_is_noop (g : ProcessedData) (vs : List ℚ)
    (_hne : vs ≠ []) (hz : ∀ x ∈ vs, x = 0) :
    g.shift_pings vs false = g := by
  have hmin : npMinQ vs = 0 := npMinQ_zero vs hz
  have hmax : npMaxQ vs = 0 := npMaxQ_zero vs hz
  unfold ProcessedData.shift_pings
  rw [hmin, hmax]
  simp

/-- Witness for C6 at the concrete grid `exGridSv` and the zero shift vector
of its two pings. -/
theorem c6_shift_pings_zero_is_noop_witness :
    ([0, 0] : List ℚ) ≠ [] ∧ (∀ x ∈ ([0, 0] : List ℚ), x = 0) ∧
    exGridSv.shift_pings [0, 0] false = exGridSv :=
  ⟨by simp, by simp, c6_shift_pings_zero_is_noop exGridSv [0, 0] (by simp) (by simp)⟩

/-- Length of a numpy boolean selection over one row: the number of True
entries of the row mask, whenever the row and the mask row have equal
length. -/
theorem rowSelect_length (row : List (Option ℝ)) (mrow : List Bool)
    (h : row.length = mrow.length) :
    (rowSelect row mrow).length = mrow.count true := by
  induction mrow generalizing row with
  | nil =>
    have hrow : row = [] := List.eq_nil_of_length_eq_zero (by simpa using h)
    subst hrow
    rfl
  | cons b bs ih =>
    cases row with
    | nil => simp at h
    | cons v vs =>
      have hlen : vs.length = bs.length := by simpa using h
      cases b with
      | false => simpa [rowSelect, List.count_cons] using ih vs hlen
      | true => simpa [rowSelect, List.count_cons] using ih vs hlen

/-- Length of a full 2D numpy boolean selection: the number of True entries
of the whole mask, whenever data and mask have matching shape. -/
theorem npBoolIndex_length (d : List (List (Option ℝ))) (msk : List (List Bool))
    (h : List.Forall₂ (fun r mr => r.length = mr.length) d msk) :
    (npBoolIndex d msk).length = msk.flatten.count true := by
  induction h with
  | nil => rfl
  | @cons r mr d' msk' hrm _ ih =>
    simp only [npBoolIndex, List.zipWith_cons_cons, List.flatten_cons,
      List.length_append, List.count_append] at *
    rw [rowSelect_length r mr hrm, ih]

/-- Claim C7: reading the grid with a compatible sample-typed mask of the
grid shape yields the flat row-major boolean selection of the live array
(a flat sequence, not a grid object) whose length is the number of True
entries of the mask. -/
theorem c7_sample_mask_read (g : ProcessedData) (m : EchoMask)
    (hty : m.maskType = "sample")
    (hpt : m.pingTime = g.pingTime)
    (hk : m.vaxisKind = some g.axisKind)
    (hv : m.vaxis = g.vaxis)
    (hsh : List.Forall₂ (fun (r : List (Option ℝ)) (mr : List Bool) =>
      r.length = mr.length) g.data m.sampleMask) :
    g.getitem_mask m = Except.ok (npBoolIndex g.data m.sampleMask) ∧
    (npBoolIndex g.data m.sampleMask).length = m.sampleMask.flatten.count true := by
  have hcm : g.check_mask m = Except.ok () := by
    cases hax : g.axisKind <;>
      simp [ProcessedData.check_mask, hpt, hk, hv, hax]
  refine ⟨?_, npBoolIndex_length _ _ hsh⟩
  unfold ProcessedData.getitem_mask
  rw [hcm]
  simp [hty]

/-- Witness for C7 at the concrete grid `exGridPow` and the sample mask
`exMaskPow`, which selects three of its nine cells. -/
theorem c7_sample_mask_read_witness :
    exMaskPow.maskType = "sample" ∧
    exGridPow.getitem_mask exMaskPow =
      Except.ok (npBoolIndex exGridPow.data exMaskPow.sampleMask) ∧
    (npBoolIndex exGridPow.data exMaskPow.sampleMask).length =
      exMaskPow.sampleMask.flatten.count true ∧
    exMaskPow.sampleMask.flatten.count true = 3 :=
  ⟨rfl,
    (c7_sample_mask_read exGridPow exMaskPow rfl rfl rfl rfl
      (by simp [exGridPow, exMaskPow])).1,
    (c7_sample_mask_read exGridPow exMaskPow rfl rfl rfl rfl
      (by simp [exGridPow, exMaskPow])).2,
    by decide⟩

/-- Round trip of one sample value: 10 * log10 of 10 ** (x / 10) recovers x,
and NaN stays NaN. -/
theorem log10x10_pow10 (v : Option ℝ) :
    log10x10 (Option.map (fun x => (10 : ℝ) ^ (x / 10)) v) = v := by
  cases v with
  | none => rfl
  | some x =>
    have hpos : (0 : ℝ) < (10 : ℝ) ^ (x / 10) :=
      Real.rpow_pos_of_pos (by norm_num) _
    simp only [Option.map_some', log10x10, Option.some_bind]
    rw [if_pos hpos, Real.logb_rpow (by norm_num) (by norm_num)]
    congr 1
    ring

/-- Mapping every sample to linear and back to log is the identity on the 2D
data array. -/
theorem map_pow10_log10x10 (d : List (List (Option ℝ))) :
    (d.map fun row => row.map (Option.map fun x => (10 : ℝ) ^ (x / 10))).map
      (fun row => row.map log10x10) = d := by
  have hfun : (log10x10 ∘ Option.map fun x => (10 : ℝ) ^ (x / 10)) = id := by
    funext v
    exact log10x10_pow10 v
  simp [List.map_map, Function.comp, hfun]

/-- Claim C4: for an Sv (respectively Sp) grid, to_linear maps every sample
through 10 ** (Sv / 10) and renames the tag to sv (resp. sp), to_log maps
every sample of the linear grid through 10 * log10 and restores the log tag,
and the composition to_linear then to_log is the identity on the grid, hence
reproduces every original sample value exactly. -/
theorem c4_log_linear_roundtrip (g : ProcessedData)
    (h : g.dataType = "Sv" ∨ g.dataType = "Sp") :
    g.to_linear.dataType = (if g.dataType = "Sv" then "sv" else "sp") ∧
    g.to_linear.data =
      g.data.map (fun row => row.map (Option.map fun x => (10 : ℝ) ^ (x / 10))) ∧
    g.to_linear.to_log.data = g.to_linear.data.map (fun row => row.map log10x10) ∧
    g.to_linear.to_log = g := by
  rcases h with h | h
  · have h1 : g.to_linear = { g with
        data := g.data.map fun row => row.map (Option.map fun x => (10 : ℝ) ^ (x / 10)),
        dataType := "sv" } := by
      simp [ProcessedData.to_linear, h]
    have h2 : g.to_linear.to_log = { g with
        data := (g.data.map fun row =>
          row.map (Option.map fun x => (10 : ℝ) ^ (x / 10))).map
            (fun row => row.map log10x10),
        dataType := "Sv" } := by
      rw [h1]; simp [ProcessedData.to_log]
    refine ⟨by rw [h1]; simp [h], by rw [h1], by rw [h2, h1], ?_⟩
    rw [h2, map_pow10_log10x10, ← h]
  · have h1 : g.to_linear = { g with
        data := g.data.map fun row => row.map (Option.map fun x => (10 : ℝ) ^ (x / 10)),
        dataType := "sp" } := by
      rw [ProcessedData.to_linear, if_neg (by rw [h]; decide)]
      simp [h]
    have h2 : g.to_linear.to_log = { g with
        data := (g.data.map fun row =>
          row.map (Option.map fun x => (10 : ℝ) ^ (x / 10))).map
            (fun row => row.map log10x10),
        dataType := "Sp" } := by
      rw [h1]
      rw [ProcessedData.to_log]
      simp
    refine ⟨by rw [h1, if_neg (by rw [h]; decide)], by rw [h1], by rw [h2, h1], ?_⟩
    rw [h2, map_pow10_log10x10, ← h]

/-- Witness for C4 at the concrete Sv grid `exGridSv`. -/
theorem c4_log_linear_roundtrip_witness :
    (exGridSv.dataType = "Sv" ∨ exGridSv.dataType = "Sp") ∧
    exGridSv.to_linear.to_log = exGridSv :=
  ⟨Or.inl rfl, (c4_log_linear_roundtrip exGridSv (Or.inl rfl)).2.2.2⟩

/-- get_indices with equal start and end ping numbers resolves to exactly
that row, when it is in range. -/
theorem get_indices_self (g : ProcessedData) (pn : ℕ) (hpn : pn < g.nPings) :
    g.get_indices none none (some pn) (some pn) = [pn] := by
  unfold ProcessedData.get_indices
  simp only [Option.all_some, Option.all_none, Bool.and_true]
  have h1 : ∀ i ∈ List.range g.nPings,
      (decide (pn ≤ i) && decide (i ≤ pn)) = decide (i = pn) := by
    intro i _
    by_cases hip : i = pn
    · subst hip; simp
    · have h2 : ¬ (pn ≤ i) ∨ ¬ (i ≤ pn) := by omega
      rcases h2 with hh | hh <;> simp [hh, hip]
  rw [List.filter_congr h1, List.filter_eq,
    List.count_eq_one_of_mem (List.nodup_range g.nPings) (List.mem_range.mpr hpn)]
  rfl

/-- to_linear never changes sample_thickness. -/
theorem to_linear_sampleThickness (g : ProcessedData) :
    g.to_linear.sampleThickness = g.sampleThickness := by
  unfold ProcessedData.to_linear
  split_ifs <;> rfl

/-- to_log never changes sample_thickness. -/
theorem to_log_sampleThickness (g : ProcessedData) :
    g.to_log.sampleThickness = g.sampleThickness := by
  unfold ProcessedData.to_log
  split_ifs <;> rfl

/-- The data array of to_log is the original array or a per-sample map of
it. -/
theorem to_log_data_cases (g : ProcessedData) :
    g.to_log.data = g.data ∨
    ∃ f, g.to_log.data = g.data.map fun row => row.map f := by
  unfold ProcessedData.to_log
  split_ifs
  · exact Or.inr ⟨log10x10, rfl⟩
  · exact Or.inr ⟨log10x10, rfl⟩
  · exact Or.inl rfl

/-- Every row of to_log keeps the length of a row of the input. -/
theorem mem_to_log_row (g : ProcessedData) (row : List (Option ℝ))
    (h : row ∈ g.to_log.data) :
    ∃ row0 ∈ g.data, row.length = row0.length := by
  rcases to_log_data_cases g with hd | ⟨f, hd⟩
  · rw [hd] at h
    exact ⟨row, h, rfl⟩
  · rw [hd] at h
    rcases List.mem_map.mp h with ⟨r0, hr0, rfl⟩
    exact ⟨r0, hr0, by simp⟩

/-- The interpolation tail sets sample_thickness to the mean consecutive
difference of the new axis, for log and linear data alike. -/
theorem interpTail_sampleThickness (g : ProcessedData) (ov nv : List ℚ) :
    (interpTail g ov nv).sampleThickness = npMean (ediff1d nv) := by
  unfold interpTail
  by_cases hL : g.dataType.startsWith "S" <;>
    simp [hL, to_log_sampleThickness, to_linear_sampleThickness]

/-- Every data row produced by the interpolation tail lives on the new axis:
its length is the new axis length. -/
theorem interpTail_row_length (g : ProcessedData) (ov nv : List ℚ) :
    ∀ row ∈ (interpTail g ov nv).data, row.length = nv.length := by
  intro row hrow
  unfold interpTail at hrow
  by_cases hL : g.dataType.startsWith "S"
  · simp only [hL, if_true] at hrow
    rcases mem_to_log_row _ _ hrow with ⟨row0, h0, hlen⟩
    simp only [List.mem_map] at h0
    rcases h0 with ⟨r1, _, rfl⟩
    rw [hlen]
    simp [npInterp]
  · simp only [hL, if_false] at hrow
    rcases List.mem_map.mp hrow with ⟨r1, _, rfl⟩
    simp [npInterp]

/-- Claim C10: replace and insert with a source grid whose vertical axis
differs from the target axis (different length, or same length but not
np.isclose) mutate the passed source object itself: the returned source state
is the in-place interpolation of the source onto the target axis, whose
sample_thickness has been recomputed as the mean consecutive difference of
the target axis and whose every data row now lives on the target axis. -/
theorem c10_replace_insert_mutate_source (g src : ProcessedData) (pn : ℕ)
    (hpn : pn < g.nPings)
    (hdt : g.dataType = src.dataType)
    (hax : g.vaxis.length = src.nSamples → allCloseB src.vaxis g.vaxis = false) :
    (g.replace (some src) (some pn) none none).2 = some (src.interpolate g.vaxis) ∧
    (g.insert (some src) (some pn) none true none).2 = some (src.interpolate g.vaxis) ∧
    (src.interpolate g.vaxis).sampleThickness = npMean (ediff1d g.vaxis) ∧
    ∀ row ∈ (src.interpolate g.vaxis).data, row.length = g.vaxis.length := by
  have hne : (g.dataType != src.dataType) = false := by
    rw [hdt]
    exact bne_self_eq_false src.dataType
  have hinterp : (src.interpolate g.vaxis).sampleThickness = npMean (ediff1d g.vaxis) ∧
      ∀ row ∈ (src.interpolate g.vaxis).data, row.length = g.vaxis.length := by
    unfold ProcessedData.interpolate
    by_cases hlen : g.vaxis.length = src.nSamples
    · rw [if_neg (by simp [hlen]), if_neg (by simp [hax hlen])]
      exact ⟨interpTail_sampleThickness _ _ _, interpTail_row_length _ _ _⟩
    · rw [if_pos hlen]
      exact ⟨interpTail_sampleThickness _ _ _, interpTail_row_length _ _ _⟩
  refine ⟨?_, ?_, hinterp.1, hinterp.2⟩
  · unfold ProcessedData.replace
    simp only [npTruthy]
    rw [get_indices_self g pn hpn]
    simp only [List.head?_cons]
    unfold replaceChecked
    rw [hne]
    simp
  · unfold ProcessedData.insert
    rw [get_indices_self g pn hpn]
    simp only [List.head?_cons]
    unfold insertChecked
    rw [hne]
    simp

/-- Witness for C10: inserting or replacing with the 2-sample source
`exGridPowSrc` into the 3-sample target `exGridPow` mutates the passed
source. -/
theorem c10_replace_insert_mutate_source_witness :
    0 < exGridPow.nPings ∧
    exGridPow.dataType = exGridPowSrc.dataType ∧
    (exGridPow.replace (some exGridPowSrc) (some 0) none none).2 =
      some (exGridPowSrc.interpolate exGridPow.vaxis) ∧
    (exGridPow.insert (some exGridPowSrc) (some 0) none true none).2 =
      some (exGridPowSrc.interpolate exGridPow.vaxis) :=
  ⟨by decide, rfl,
    (c10_replace_insert_mutate_source exGridPow exGridPowSrc 0 (by decide) rfl
      (by decide)).1,
    (c10_replace_insert_mutate_source exGridPow exGridPowSrc 0 (by decide) rfl
      (by decide)).2.1⟩
